import Mathlib

/-!
Verification development for the sokol_gfx graphics-resource API
(`src/sokol_gfx.h`).  The constants, enumerations, descriptor structures,
and the descriptor-initialisation functions are shallow embeddings of the
C declarations in the header.  C `float` fields only ever receive the
exact constants 0.5 and 1.0, so they are modelled by rational numbers;
nullable C pointers (`const char*`, `void*`) are modelled by `Option`;
a failing `SOKOL_ASSERT` aborts the program before any mutation, so a
function guarded by asserts is modelled as returning `none` when an
assert would fire (the caller-visible descriptor is then unchanged).
The resource-pool implementation (`_sokol_gfx.impl.h`) is not part of the
visible source; the pool model further down is modelled from the spec.
-/

/-- C enum constants from sokol_gfx.h lines 31-41. -/
abbrev SG_INVALID_ID : Nat := 0

abbrev SG_DEFAULT_PASS : Nat := SG_INVALID_ID

abbrev SG_MAX_COLOR_ATTACHMENTS : Nat := 4

abbrev SG_MAX_SHADERSTAGE_BUFFERS : Nat := 4

abbrev SG_MAX_SHADERSTAGE_IMAGES : Nat := 12

abbrev SG_MAX_SHADERSTAGE_UBS : Nat := 4

abbrev SG_MAX_UNIFORMS : Nat := 16

abbrev SG_MAX_VERTEX_ATTRIBUTES : Nat := 16

/-- The 5 resource categories (sg_resource_type); only its cardinality
`SG_NUM_RESOURCETYPES = 5` matters to the embedded code. -/
abbrev SG_NUM_RESOURCETYPES : Nat := 5

/-- sg_resource_state: lifecycle state of one resource-pool slot. -/
inductive sg_resource_state where
  | SG_RESOURCESTATE_INITIAL
  | SG_RESOURCESTATE_ALLOC
  | SG_RESOURCESTATE_VALID
  | SG_RESOURCESTATE_FAILED
deriving DecidableEq, Repr

/-! sg_pass_action_bits: each value below is the corresponding C enum
constant, with `|` embedded as `|||` and `<<` as `<<<`. -/

abbrev SG_PASSACTION_CLEAR_COLOR0 : Nat := 1 <<< 0

abbrev SG_PASSACTION_CLEAR_COLOR1 : Nat := 1 <<< 1

abbrev SG_PASSACTION_CLEAR_COLOR2 : Nat := 1 <<< 2

abbrev SG_PASSACTION_CLEAR_COLOR3 : Nat := 1 <<< 3

abbrev SG_PASSACTION_CLEAR_COLOR : Nat := (1 <<< 0) ||| (1 <<< 1) ||| (1 <<< 2) ||| (1 <<< 3)

abbrev SG_PASSACTION_CLEAR_DEPTH : Nat := 1 <<< 4

abbrev SG_PASSACTION_CLEAR_STENCIL : Nat := 1 <<< 5

abbrev SG_PASSACTION_CLEAR_DEPTH_STENCIL : Nat := (1 <<< 4) ||| (1 <<< 5)

abbrev SG_PASSACTION_CLEAR_ALL : Nat := SG_PASSACTION_CLEAR_COLOR ||| SG_PASSACTION_CLEAR_DEPTH_STENCIL

abbrev SG_PASSACTION_LOAD_COLOR0 : Nat := 1 <<< 6

abbrev SG_PASSACTION_LOAD_COLOR1 : Nat := 1 <<< 7

abbrev SG_PASSACTION_LOAD_COLOR2 : Nat := 1 <<< 8

abbrev SG_PASSACTION_LOAD_COLOR3 : Nat := 1 <<< 9

abbrev SG_PASSACTION_LOAD_COLOR : Nat := (1 <<< 6) ||| (1 <<< 7) ||| (1 <<< 8) ||| (1 <<< 9)

abbrev SG_PASSACTION_LOAD_DEPTH : Nat := 1 <<< 10

abbrev SG_PASSACTION_LOAD_STENCIL : Nat := 1 <<< 11

abbrev SG_PASSACTION_LOAD_DEPTH_STENCIL : Nat := (1 <<< 10) ||| (1 <<< 11)

abbrev SG_PASSACTION_LOAD_ALL : Nat := SG_PASSACTION_LOAD_COLOR ||| SG_PASSACTION_LOAD_DEPTH_STENCIL

/-- The clear bit of each of the 6 attachments in the order
color0, color1, color2, color3, depth, stencil. -/
def clearBit (a : Fin 6) : Nat :=
  [SG_PASSACTION_CLEAR_COLOR0, SG_PASSACTION_CLEAR_COLOR1, SG_PASSACTION_CLEAR_COLOR2,
   SG_PASSACTION_CLEAR_COLOR3, SG_PASSACTION_CLEAR_DEPTH, SG_PASSACTION_CLEAR_STENCIL].getD (a : Nat) 0

/-- The load bit of each of the 6 attachments, same order as `clearBit`. -/
def loadBit (a : Fin 6) : Nat :=
  [SG_PASSACTION_LOAD_COLOR0, SG_PASSACTION_LOAD_COLOR1, SG_PASSACTION_LOAD_COLOR2,
   SG_PASSACTION_LOAD_COLOR3, SG_PASSACTION_LOAD_DEPTH, SG_PASSACTION_LOAD_STENCIL].getD (a : Nat) 0

/-- The pass-action bits contributed by one attachment, given the choice
(clear bit wanted, load bit wanted). -/
def attachmentMask (f : Fin 6 → Bool × Bool) (a : Fin 6) : Nat :=
  (if (f a).1 then clearBit a else 0) ||| (if (f a).2 then loadBit a else 0)

/-- Build a pass-action mask from a per-attachment choice
(clear bit wanted, load bit wanted). -/
def mkMask (f : Fin 6 → Bool × Bool) : Nat :=
  (List.finRange 6).foldl (fun m a => m ||| attachmentMask f a) 0

theorem clearBit_eq_two_pow (a : Fin 6) : clearBit a = 2 ^ (a : Nat) := by
  fin_cases a <;> rfl

theorem loadBit_eq_two_pow (a : Fin 6) : loadBit a = 2 ^ ((a : Nat) + 6) := by
  fin_cases a <;> rfl

theorem and_two_pow_ne_zero (x k : Nat) : (x &&& 2 ^ k ≠ 0) ↔ x.testBit k := by
  cases h : x.testBit k <;>
    simp [Nat.and_two_pow, h, Nat.pos_iff_ne_zero, Nat.pow_eq_zero]

theorem mkMask_unfold (f : Fin 6 → Bool × Bool) :
    mkMask f = attachmentMask f 0 ||| attachmentMask f 1 ||| attachmentMask f 2 |||
      attachmentMask f 3 ||| attachmentMask f 4 ||| attachmentMask f 5 := by
  unfold mkMask
  rw [show List.finRange 6 = [0, 1, 2, 3, 4, 5] from rfl]
  simp only [List.foldl_cons, List.foldl_nil, Nat.zero_or]

theorem attachmentMask_testBit (f : Fin 6 → Bool × Bool) (b : Fin 6) (k : Nat) :
    (attachmentMask f b).testBit k =
      (((f b).1 && decide ((b : Nat) = k)) || ((f b).2 && decide ((b : Nat) + 6 = k))) := by
  cases h1 : (f b).1 <;> cases h2 : (f b).2 <;>
    simp [attachmentMask, h1, h2, clearBit_eq_two_pow, loadBit_eq_two_pow, Nat.testBit_two_pow]

theorem mkMask_spec (f : Fin 6 → Bool × Bool) (a : Fin 6) :
    ((mkMask f &&& clearBit a ≠ 0) ↔ (f a).1 = true) ∧
    ((mkMask f &&& loadBit a ≠ 0) ↔ (f a).2 = true) := by
  rw [clearBit_eq_two_pow, loadBit_eq_two_pow, and_two_pow_ne_zero, and_two_pow_ne_zero,
    mkMask_unfold]
  fin_cases a <;>
    (simp only [Nat.testBit_or, attachmentMask_testBit];
     simp [show ((0 : Fin 6) : Nat) = 0 from rfl, show ((1 : Fin 6) : Nat) = 1 from rfl,
       show ((2 : Fin 6) : Nat) = 2 from rfl, show ((3 : Fin 6) : Nat) = 3 from rfl,
       show ((4 : Fin 6) : Nat) = 4 from rfl, show ((5 : Fin 6) : Nat) = 5 from rfl])

/-- sg_pass_action (sokol_gfx.h lines 111-116): 4 RGBA clear colors, a
depth clear value, a stencil clear value and the action bitmask. -/
structure sg_pass_action where
  color : Fin SG_MAX_COLOR_ATTACHMENTS → Fin 4 → ℚ
  depth : ℚ
  stencil : Nat
  actions : Nat

/-- sg_init_pass_action (sokol_gfx.h lines 120-131): the C function fully
overwrites the struct; it is modelled as the value it produces.  The inner
loop writes 0.5 to components 0,1,2 and then 1.0 to component 3. -/
def sg_init_pass_action : sg_pass_action where
  color := fun _ c => if (c : Nat) < 3 then (1 : ℚ) / 2 else 1
  depth := 1
  stencil := 0
  actions := SG_PASSACTION_CLEAR_ALL

/-- sg_desc (sokol_gfx.h lines 134-139). -/
structure sg_desc where
  width : Int
  height : Int
  sample_count : Int
  resource_pool_size : Fin SG_NUM_RESOURCETYPES → Int

/-- sg_init_desc (sokol_gfx.h lines 143-151), modelled as the value the C
function writes through its pointer argument. -/
def sg_init_desc : sg_desc where
  width := 640
  height := 400
  sample_count := 1
  resource_pool_size := fun _ => 128

/-- sg_buffer_type (sokol_gfx.h lines 154-157). -/
inductive sg_buffer_type where
  | SG_BUFFERTYPE_VERTEX_BUFFER
  | SG_BUFFERTYPE_INDEX_BUFFER
deriving DecidableEq, Repr

/-- sg_usage (sokol_gfx.h lines 241-245). -/
inductive sg_usage where
  | SG_USAGE_IMMUTABLE
  | SG_USAGE_DYNAMIC
  | SG_USAGE_STREAM
deriving DecidableEq, Repr

/-- Modelled from the spec: the implementation of `sg_update_buffer` /
`sg_update_image` is not in the visible source (only declared); the spec
states that update operations are permitted only for resources created
with a mutable usage (dynamic/stream) and are a usage violation on an
immutable resource. -/
def updateAllowed : sg_usage → Bool
  | sg_usage.SG_USAGE_DYNAMIC => true
  | sg_usage.SG_USAGE_STREAM => true
  | sg_usage.SG_USAGE_IMMUTABLE => false

/-- sg_buffer_desc (sokol_gfx.h lines 391-397); the C null pointer in
`data_ptr` is modelled by `none`. -/
structure sg_buffer_desc where
  size : Int
  type : sg_buffer_type
  usage : sg_usage
  data_ptr : Option Nat
  data_size : Int
deriving DecidableEq, Repr

/-- sg_init_buffer_desc (sokol_gfx.h lines 401-408). -/
def sg_init_buffer_desc : sg_buffer_desc where
  size := 0
  type := sg_buffer_type.SG_BUFFERTYPE_VERTEX_BUFFER
  usage := sg_usage.SG_USAGE_IMMUTABLE
  data_ptr := none
  data_size := 0

/-- C2: the pass action produced by sg_init_pass_action clears all 4 color
attachments to (0.5, 0.5, 0.5, 1.0), depth to 1.0, stencil to 0, and its
action mask is the clear-all mask, which has every clear bit set and no
load bit set. -/
theorem C2_default_pass_action :
    (∀ i : Fin SG_MAX_COLOR_ATTACHMENTS,
      sg_init_pass_action.color i 0 = 1 / 2 ∧
      sg_init_pass_action.color i 1 = 1 / 2 ∧
      sg_init_pass_action.color i 2 = 1 / 2 ∧
      sg_init_pass_action.color i 3 = 1) ∧
    sg_init_pass_action.depth = 1 ∧
    sg_init_pass_action.stencil = 0 ∧
    sg_init_pass_action.actions = SG_PASSACTION_CLEAR_ALL ∧
    (∀ a : Fin 6, sg_init_pass_action.actions &&& clearBit a ≠ 0) ∧
    (∀ a : Fin 6, sg_init_pass_action.actions &&& loadBit a = 0) := by
  refine ⟨fun i => ⟨rfl, rfl, rfl, rfl⟩, rfl, rfl, rfl, ?_, ?_⟩ <;> decide

/-- C3: the setup descriptor produced by sg_init_desc has width 640,
height 400, sample count 1, and all 5 per-category pool capacities 128. -/
theorem C3_default_setup_desc :
    sg_init_desc.width = 640 ∧
    sg_init_desc.height = 400 ∧
    sg_init_desc.sample_count = 1 ∧
    ∀ i : Fin SG_NUM_RESOURCETYPES, sg_init_desc.resource_pool_size i = 128 := by
  exact ⟨rfl, rfl, rfl, fun i => rfl⟩

/-- C4: the invalid-handle sentinel SG_INVALID_ID and the default-pass
sentinel SG_DEFAULT_PASS are the same constant, and both equal 0. -/
theorem C4_sentinel_zero :
    SG_INVALID_ID = SG_DEFAULT_PASS ∧ SG_INVALID_ID = 0 ∧ SG_DEFAULT_PASS = 0 := by
  decide

/-- C5: the 6 attachments have pairwise distinct clear bits and pairwise
distinct load bits, no clear bit equals a load bit, the clear-all mask is
the union of the 6 clear bits, clear-all and load-all are bit-disjoint,
and every per-attachment combination of clear / load / neither ("don't
care") is realisable by a mask, independently across attachments. -/
theorem C5_pass_action_bit_layout :
    (∀ a b : Fin 6, clearBit a = clearBit b → a = b) ∧
    (∀ a b : Fin 6, loadBit a = loadBit b → a = b) ∧
    (∀ a b : Fin 6, clearBit a ≠ loadBit b) ∧
    SG_PASSACTION_CLEAR_ALL =
      clearBit 0 ||| clearBit 1 ||| clearBit 2 ||| clearBit 3 ||| clearBit 4 ||| clearBit 5 ∧
    SG_PASSACTION_LOAD_ALL =
      loadBit 0 ||| loadBit 1 ||| loadBit 2 ||| loadBit 3 ||| loadBit 4 ||| loadBit 5 ∧
    SG_PASSACTION_CLEAR_ALL &&& SG_PASSACTION_LOAD_ALL = 0 ∧
    (∀ f : Fin 6 → Bool × Bool, ∀ a : Fin 6,
      ((mkMask f &&& clearBit a ≠ 0) ↔ (f a).1 = true) ∧
      ((mkMask f &&& loadBit a ≠ 0) ↔ (f a).2 = true)) := by
  refine ⟨?_, ?_, ?_, ?_, ?_, ?_, fun f a => mkMask_spec f a⟩ <;> decide

/-- C9: the buffer descriptor produced by sg_init_buffer_desc describes an
immutable vertex buffer with no data (size 0, null data pointer, data size
0), and immutable is exactly the usage class for which post-creation
updates are not allowed. -/
theorem C9_default_buffer_desc :
    sg_init_buffer_desc.size = 0 ∧
    sg_init_buffer_desc.type = sg_buffer_type.SG_BUFFERTYPE_VERTEX_BUFFER ∧
    sg_init_buffer_desc.usage = sg_usage.SG_USAGE_IMMUTABLE ∧
    sg_init_buffer_desc.data_ptr = none ∧
    sg_init_buffer_desc.data_size = 0 ∧
    updateAllowed sg_init_buffer_desc.usage = false := by
  decide

/-- sg_image_type (sokol_gfx.h lines 159-165). -/
inductive sg_image_type where
  | SG_IMAGETYPE_INVALID
  | SG_IMAGETYPE_2D
  | SG_IMAGETYPE_CUBE
  | SG_IMAGETYPE_3D
  | SG_IMAGETYPE_ARRAY
deriving DecidableEq, Repr

/-- sg_uniform_type (sokol_gfx.h lines 272-279). -/
inductive sg_uniform_type where
  | SG_UNIFORMTYPE_INVALID
  | SG_UNIFORMTYPE_FLOAT
  | SG_UNIFORMTYPE_FLOAT2
  | SG_UNIFORMTYPE_FLOAT3
  | SG_UNIFORMTYPE_FLOAT4
  | SG_UNIFORMTYPE_MAT4
deriving DecidableEq, Repr

/-- sg_vertex_format (sokol_gfx.h lines 247-262). -/
inductive sg_vertex_format where
  | SG_VERTEXFORMAT_INVALID
  | SG_VERTEXFORMAT_FLOAT
  | SG_VERTEXFORMAT_FLOAT2
  | SG_VERTEXFORMAT_FLOAT3
  | SG_VERTEXFORMAT_FLOAT4
  | SG_VERTEXFORMAT_BYTE4
  | SG_VERTEXFORMAT_BYTE4N
  | SG_VERTEXFORMAT_UBYTE4
  | SG_VERTEXFORMAT_UBYTE4N
  | SG_VERTEXFORMAT_SHORT2
  | SG_VERTEXFORMAT_SHORT2N
  | SG_VERTEXFORMAT_SHORT4
  | SG_VERTEXFORMAT_SHORT4N
  | SG_VERTEXFORMAT_UINT10_N2
deriving DecidableEq, Repr

/-- sg_face (sokol_gfx.h lines 281-285). -/
inductive sg_face where
  | SG_FACE_FRONT
  | SG_FACE_BACK
  | SG_FACE_BOTH
deriving DecidableEq, Repr

/-- sg_compare_func (sokol_gfx.h lines 287-296). -/
inductive sg_compare_func where
  | SG_COMPAREFUNC_NEVER
  | SG_COMPAREFUNC_LESS
  | SG_COMPAREFUNC_EQUAL
  | SG_COMPAREFUNC_LESS_EQUAL
  | SG_COMPAREFUNC_GREATER
  | SG_COMPAREFUNC_NOT_EQUAL
  | SG_COMPAREFUNC_GREATER_EQUAL
  | SG_COMPAREFUNC_ALWAYS
deriving DecidableEq, Repr

/-- sg_stencil_op (sokol_gfx.h lines 298-307). -/
inductive sg_stencil_op where
  | SG_STENCILOP_KEEP
  | SG_STENCILOP_ZERO
  | SG_STENCILOP_REPLACE
  | SG_STENCILOP_INCR_CLAMP
  | SG_STENCILOP_DECR_CLAMP
  | SG_STENCILOP_INVERT
  | SG_STENCILOP_INCR_WRAP
  | SG_STENCILOP_DECR_WRAP
deriving DecidableEq, Repr

/-- sg_blend_factor (sokol_gfx.h lines 309-325). -/
inductive sg_blend_factor where
  | SG_BLENDFACTOR_ZERO
  | SG_BLENDFACTOR_ONE
  | SG_BLENDFACTOR_SRC_COLOR
  | SG_BLENDFACTOR_ONE_MINUS_SRC_COLOR
  | SG_BLENDFACTOR_SRC_ALPHA
  | SG_BLENDFACTOR_ONE_MINUS_SRC_ALPHA
  | SG_BLENDFACTOR_DST_COLOR
  | SG_BLENDFACTOR_ONE_MINUS_DST_COLOR
  | SG_BLENDFACTOR_DST_ALPHA
  | SG_BLENDFACTOR_ONE_MINUS_DST_ALPHA
  | SG_BLENDFACTOR_SRC_ALPHA_SATURATED
  | SG_BLENDFACTOR_BLEND_COLOR
  | SG_BLENDFACTOR_ONE_MINUS_BLEND_COLOR
  | SG_BLENDFACTOR_BLEND_ALPHA
  | SG_BLENDFACTOR_ONE_MINUS_BLEND_ALPHA
deriving DecidableEq, Repr

/-- sg_blend_op (sokol_gfx.h lines 327-331). -/
inductive sg_blend_op where
  | SG_BLENDOP_ADD
  | SG_BLENDOP_SUBTRACT
  | SG_BLENDOP_REVERSE_SUBTRACT
deriving DecidableEq, Repr

/-- sg_step_func (sokol_gfx.h lines 333-336). -/
inductive sg_step_func where
  | SG_STEPFUNC_PER_VERTEX
  | SG_STEPFUNC_PER_INSTANCE
deriving DecidableEq, Repr

/-- sg_color_mask constant SG_COLORMASK_RGBA (sokol_gfx.h line 343). -/
abbrev SG_COLORMASK_RGBA : Nat := 0xF

/-- sg_vertex_attr (sokol_gfx.h lines 385-388); the nullable
`const char* name` is modelled by `Option String`. -/
structure sg_vertex_attr where
  name : Option String
  format : sg_vertex_format
deriving DecidableEq, Repr

/-- sg_shader_uniform_desc (sokol_gfx.h lines 416-421). -/
structure sg_shader_uniform_desc where
  name : Option String
  type : sg_uniform_type
  offset : Int
  array_size : Int
deriving DecidableEq, Repr

/-- sg_shader_uniform_block_desc (sokol_gfx.h lines 423-426). -/
structure sg_shader_uniform_block_desc where
  num_uniforms : Nat
  uniforms : Fin SG_MAX_UNIFORMS → sg_shader_uniform_desc

/-- sg_shader_image_desc (sokol_gfx.h lines 428-431). -/
structure sg_shader_image_desc where
  name : Option String
  type : sg_image_type
deriving DecidableEq, Repr

/-- sg_shader_stage_desc (sokol_gfx.h lines 433-444). -/
structure sg_shader_stage_desc where
  source : Option String
  num_uniform_blocks : Nat
  num_textures : Nat
  uniform_blocks : Fin SG_MAX_SHADERSTAGE_UBS → sg_shader_uniform_block_desc
  images : Fin SG_MAX_SHADERSTAGE_IMAGES → sg_shader_image_desc

/-- _sg_init_shader_stage_desc (sokol_gfx.h lines 447-468). -/
def _sg_init_shader_stage_desc : sg_shader_stage_desc where
  source := none
  num_uniform_blocks := 0
  num_textures := 0
  uniform_blocks := fun _ =>
    { num_uniforms := 0
      uniforms := fun _ =>
        { name := none
          type := sg_uniform_type.SG_UNIFORMTYPE_INVALID
          offset := 0
          array_size := 1 } }
  images := fun _ =>
    { name := none, type := sg_image_type.SG_IMAGETYPE_INVALID }

/-- sg_shader_desc (sokol_gfx.h lines 471-476). -/
structure sg_shader_desc where
  vs : sg_shader_stage_desc
  fs : sg_shader_stage_desc
  num_attrs : Nat
  attrs : Fin SG_MAX_VERTEX_ATTRIBUTES → sg_vertex_attr

/-- sg_init_shader_desc (sokol_gfx.h lines 481-491). -/
def sg_init_shader_desc : sg_shader_desc where
  vs := _sg_init_shader_stage_desc
  fs := _sg_init_shader_stage_desc
  num_attrs := 0
  attrs := fun _ =>
    { name := none, format := sg_vertex_format.SG_VERTEXFORMAT_INVALID }

/-- sg_shader_desc_attr (sokol_gfx.h lines 492-498).  The C function
asserts that the name is non-null, the format is not the invalid format,
and num_attrs is below SG_MAX_VERTEX_ATTRIBUTES; a failing SOKOL_ASSERT
aborts before any write, modelled by `none`.  Otherwise it stores the
attribute at index num_attrs and increments num_attrs. -/
def sg_shader_desc_attr (desc : sg_shader_desc) (name : Option String)
    (format : sg_vertex_format) : Option sg_shader_desc :=
  if name = none then none
  else if format = sg_vertex_format.SG_VERTEXFORMAT_INVALID then none
  else if desc.num_attrs < SG_MAX_VERTEX_ATTRIBUTES then
    some { desc with
      num_attrs := desc.num_attrs + 1
      attrs := fun k =>
        if (k : Nat) = desc.num_attrs then { name := name, format := format }
        else desc.attrs k }
  else none

/-- sg_vertex_layout (sokol_gfx.h lines 501-506). -/
structure sg_vertex_layout where
  num_attrs : Nat
  attrs : Fin SG_MAX_VERTEX_ATTRIBUTES → sg_vertex_attr
  step_func : sg_step_func
  step_rate : Int

/-- sg_stencil_state (sokol_gfx.h lines 346-351). -/
structure sg_stencil_state where
  fail_op : sg_stencil_op
  depth_fail_op : sg_stencil_op
  pass_op : sg_stencil_op
  compare_func : sg_compare_func
deriving DecidableEq, Repr

/-- sg_depth_stencil_state (sokol_gfx.h lines 353-362). -/
structure sg_depth_stencil_state where
  stencil_front : sg_stencil_state
  stencil_back : sg_stencil_state
  depth_compare_func : sg_compare_func
  depth_write_enabled : Bool
  stencil_enabled : Bool
  stencil_read_mask : Nat
  stencil_write_mask : Nat
  stencil_ref : Nat
deriving DecidableEq, Repr

/-- sg_blend_state (sokol_gfx.h lines 364-374). -/
structure sg_blend_state where
  enabled : Bool
  src_factor_rgb : sg_blend_factor
  dst_factor_rgb : sg_blend_factor
  op_rgb : sg_blend_op
  src_factor_alpha : sg_blend_factor
  dst_factor_alpha : sg_blend_factor
  op_alpha : sg_blend_op
  color_write_mask : Nat
  blend_color : Fin 4 → ℚ

/-- sg_rasterizer_state (sokol_gfx.h lines 376-382). -/
structure sg_rasterizer_state where
  cull_face_enabled : Bool
  scissor_test_enabled : Bool
  dither_enabled : Bool
  alpha_to_coverage_enabled : Bool
  cull_face : sg_face
deriving DecidableEq, Repr

/-- sg_pipeline_desc (sokol_gfx.h lines 508-514); the shader handle
`sg_id` is a 32-bit id modelled as Nat. -/
structure sg_pipeline_desc where
  shader : Nat
  layouts : Fin SG_MAX_SHADERSTAGE_BUFFERS → sg_vertex_layout
  depth_stencil : sg_depth_stencil_state
  blend : sg_blend_state
  rast : sg_rasterizer_state

/-- _sg_init_vertex_layout (sokol_gfx.h lines 519-528). -/
def _sg_init_vertex_layout : sg_vertex_layout where
  num_attrs := 0
  attrs := fun _ =>
    { name := none, format := sg_vertex_format.SG_VERTEXFORMAT_INVALID }
  step_func := sg_step_func.SG_STEPFUNC_PER_VERTEX
  step_rate := 1

/-- _sg_init_stencil_state (sokol_gfx.h lines 529-535). -/
def _sg_init_stencil_state : sg_stencil_state where
  fail_op := sg_stencil_op.SG_STENCILOP_KEEP
  depth_fail_op := sg_stencil_op.SG_STENCILOP_KEEP
  pass_op := sg_stencil_op.SG_STENCILOP_KEEP
  compare_func := sg_compare_func.SG_COMPAREFUNC_ALWAYS

/-- _sg_init_depth_stencil_state (sokol_gfx.h lines 536-546). -/
def _sg_init_depth_stencil_state : sg_depth_stencil_state where
  stencil_front := _sg_init_stencil_state
  stencil_back := _sg_init_stencil_state
  depth_compare_func := sg_compare_func.SG_COMPAREFUNC_ALWAYS
  depth_write_enabled := false
  stencil_enabled := false
  stencil_read_mask := 0xFF
  stencil_write_mask := 0xFF
  stencil_ref := 0

/-- _sg_init_blend_state (sokol_gfx.h lines 547-560). -/
def _sg_init_blend_state : sg_blend_state where
  enabled := false
  src_factor_rgb := sg_blend_factor.SG_BLENDFACTOR_ONE
  dst_factor_rgb := sg_blend_factor.SG_BLENDFACTOR_ZERO
  op_rgb := sg_blend_op.SG_BLENDOP_ADD
  src_factor_alpha := sg_blend_factor.SG_BLENDFACTOR_ONE
  dst_factor_alpha := sg_blend_factor.SG_BLENDFACTOR_ZERO
  op_alpha := sg_blend_op.SG_BLENDOP_ADD
  color_write_mask := SG_COLORMASK_RGBA
  blend_color := fun _ => 1

/-- _sg_init_rasterizer_state (sokol_gfx.h lines 561-568). -/
def _sg_init_rasterizer_state : sg_rasterizer_state where
  cull_face_enabled := false
  scissor_test_enabled := false
  dither_enabled := true
  alpha_to_coverage_enabled := false
  cull_face := sg_face.SG_FACE_BACK

/-- sg_init_pipeline_desc (sokol_gfx.h lines 569-578). -/
def sg_init_pipeline_desc : sg_pipeline_desc where
  shader := SG_INVALID_ID
  layouts := fun _ => _sg_init_vertex_layout
  depth_stencil := _sg_init_depth_stencil_state
  blend := _sg_init_blend_state
  rast := _sg_init_rasterizer_state

/-- sg_pipeline_desc_attr (sokol_gfx.h lines 579-589).  The C function
takes the slot as int and asserts 0 <= slot < SG_MAX_SHADERSTAGE_BUFFERS,
a non-null name, a non-invalid format, and that the targeted layout has
room; a failing SOKOL_ASSERT aborts before any write, modelled by `none`.
Otherwise it appends the attribute to layouts[slot]. -/
def pipelineAppend (desc : sg_pipeline_desc) (i : Fin SG_MAX_SHADERSTAGE_BUFFERS)
    (name : Option String) (format : sg_vertex_format) : sg_pipeline_desc :=
  { desc with
    layouts := fun j =>
      if j = i then
        { desc.layouts i with
          num_attrs := (desc.layouts i).num_attrs + 1
          attrs := fun k =>
            if (k : Nat) = (desc.layouts i).num_attrs then { name := name, format := format }
            else (desc.layouts i).attrs k }
      else desc.layouts j }

def sg_pipeline_desc_attr (desc : sg_pipeline_desc) (slot : Int)
    (name : Option String) (format : sg_vertex_format) : Option sg_pipeline_desc :=
  if hs : 0 ≤ slot ∧ slot < (SG_MAX_SHADERSTAGE_BUFFERS : Int) then
    if name = none then none
    else if format = sg_vertex_format.SG_VERTEXFORMAT_INVALID then none
    else if (desc.layouts ⟨slot.toNat, by omega⟩).num_attrs < SG_MAX_VERTEX_ATTRIBUTES then
      some (pipelineAppend desc ⟨slot.toNat, by omega⟩ name format)
    else none
  else none

theorem sg_pipeline_desc_attr_natCast (desc : sg_pipeline_desc) (n : Nat)
    (hn : n < SG_MAX_SHADERSTAGE_BUFFERS) (name : Option String) (format : sg_vertex_format) :
    sg_pipeline_desc_attr desc (n : Int) name format =
      (if name = none then none
       else if format = sg_vertex_format.SG_VERTEXFORMAT_INVALID then none
       else if (desc.layouts ⟨n, hn⟩).num_attrs < SG_MAX_VERTEX_ATTRIBUTES then
         some (pipelineAppend desc ⟨n, hn⟩ name format)
       else none) := by
  unfold sg_pipeline_desc_attr
  rw [dif_pos ⟨Int.natCast_nonneg n, by exact_mod_cast hn⟩]
  rfl

/-- A shader descriptor whose attribute count is already at the
per-stage limit (concrete witness input for the attribute-limit claim). -/
def shaderDescFull : sg_shader_desc :=
  { sg_init_shader_desc with num_attrs := SG_MAX_VERTEX_ATTRIBUTES }

/-- A pipeline descriptor all of whose vertex layouts are already at the
per-stage attribute limit (concrete witness input). -/
def pipelineDescFull : sg_pipeline_desc :=
  { sg_init_pipeline_desc with
    layouts := fun _ => { _sg_init_vertex_layout with num_attrs := SG_MAX_VERTEX_ATTRIBUTES } }

/-- C1: when a shader descriptor's attribute count, or the targeted
vertex layout's attribute count of a pipeline descriptor, already equals
SG_MAX_VERTEX_ATTRIBUTES (16), sg_shader_desc_attr and
sg_pipeline_desc_attr reject the addition (the assert aborts before any
write, modelled as `none`): no descriptor with a truncated or
out-of-bounds write is ever produced. -/
theorem C1_attr_limit_rejected (sd : sg_shader_desc) (pd : sg_pipeline_desc)
    (n : Nat) (hn : n < SG_MAX_SHADERSTAGE_BUFFERS)
    (name1 name2 : Option String) (fmt1 fmt2 : sg_vertex_format)
    (h1 : sd.num_attrs = SG_MAX_VERTEX_ATTRIBUTES)
    (h2 : (pd.layouts ⟨n, hn⟩).num_attrs = SG_MAX_VERTEX_ATTRIBUTES) :
    sg_shader_desc_attr sd name1 fmt1 = none ∧
    sg_pipeline_desc_attr pd (n : Int) name2 fmt2 = none := by
  constructor
  · unfold sg_shader_desc_attr
    rw [h1]
    simp
  · rw [sg_pipeline_desc_attr_natCast pd n hn name2 fmt2, h2]
    simp

theorem C1_attr_limit_rejected_witness :
    ((0 : Nat) < SG_MAX_SHADERSTAGE_BUFFERS ∧
     shaderDescFull.num_attrs = SG_MAX_VERTEX_ATTRIBUTES ∧
     (pipelineDescFull.layouts ⟨0, by decide⟩).num_attrs = SG_MAX_VERTEX_ATTRIBUTES) ∧
    (sg_shader_desc_attr shaderDescFull (some "position")
        sg_vertex_format.SG_VERTEXFORMAT_FLOAT = none ∧
     sg_pipeline_desc_attr pipelineDescFull ((0 : Nat) : Int) (some "position")
        sg_vertex_format.SG_VERTEXFORMAT_FLOAT = none) :=
  ⟨⟨by decide, rfl, rfl⟩,
   C1_attr_limit_rejected shaderDescFull pipelineDescFull 0 (by decide)
     (some "position") (some "position")
     sg_vertex_format.SG_VERTEXFORMAT_FLOAT sg_vertex_format.SG_VERTEXFORMAT_FLOAT rfl rfl⟩

/-- C10: with a slot in [0,4), a non-null name, a non-invalid format and
room in the targeted layout, sg_pipeline_desc_attr appends exactly one
attribute to layouts[slot] (name and format stored at index num_attrs,
num_attrs incremented) and leaves the shader id, the other three vertex
layouts, the existing attributes and step function/rate of the targeted
layout, and the depth-stencil, blend, and rasterizer states unchanged. -/
theorem C10_pipeline_attr_append (desc : sg_pipeline_desc) (n : Nat)
    (hn : n < SG_MAX_SHADERSTAGE_BUFFERS) (s : String) (format : sg_vertex_format)
    (hf : format ≠ sg_vertex_format.SG_VERTEXFORMAT_INVALID)
    (hcnt : (desc.layouts ⟨n, hn⟩).num_attrs < SG_MAX_VERTEX_ATTRIBUTES) :
    ∃ d : sg_pipeline_desc,
      sg_pipeline_desc_attr desc (n : Int) (some s) format = some d ∧
      d.shader = desc.shader ∧
      d.depth_stencil = desc.depth_stencil ∧
      d.blend = desc.blend ∧
      d.rast = desc.rast ∧
      (∀ j : Fin SG_MAX_SHADERSTAGE_BUFFERS, j ≠ ⟨n, hn⟩ → d.layouts j = desc.layouts j) ∧
      (d.layouts ⟨n, hn⟩).num_attrs = (desc.layouts ⟨n, hn⟩).num_attrs + 1 ∧
      (d.layouts ⟨n, hn⟩).step_func = (desc.layouts ⟨n, hn⟩).step_func ∧
      (d.layouts ⟨n, hn⟩).step_rate = (desc.layouts ⟨n, hn⟩).step_rate ∧
      (∀ k : Fin SG_MAX_VERTEX_ATTRIBUTES, (k : Nat) ≠ (desc.layouts ⟨n, hn⟩).num_attrs →
        (d.layouts ⟨n, hn⟩).attrs k = (desc.layouts ⟨n, hn⟩).attrs k) ∧
      (∀ k : Fin SG_MAX_VERTEX_ATTRIBUTES, (k : Nat) = (desc.layouts ⟨n, hn⟩).num_attrs →
        (d.layouts ⟨n, hn⟩).attrs k = { name := some s, format := format }) := by
  refine ⟨pipelineAppend desc ⟨n, hn⟩ (some s) format,
    ?_, rfl, rfl, rfl, rfl, ?_, ?_, ?_, ?_, ?_, ?_⟩
  · rw [sg_pipeline_desc_attr_natCast desc n hn, if_neg (by simp), if_neg hf, if_pos hcnt]
  · intro j hj
    simp [pipelineAppend, hj]
  · simp [pipelineAppend]
  · simp [pipelineAppend]
  · simp [pipelineAppend]
  · intro k hk
    simp [pipelineAppend, hk]
  · intro k hk
    simp [pipelineAppend, hk]

theorem C10_pipeline_attr_append_witness :
    ((0 : Nat) < SG_MAX_SHADERSTAGE_BUFFERS ∧
     sg_vertex_format.SG_VERTEXFORMAT_FLOAT3 ≠ sg_vertex_format.SG_VERTEXFORMAT_INVALID ∧
     (sg_init_pipeline_desc.layouts ⟨0, by decide⟩).num_attrs < SG_MAX_VERTEX_ATTRIBUTES) ∧
    (∃ d : sg_pipeline_desc,
      sg_pipeline_desc_attr sg_init_pipeline_desc ((0 : Nat) : Int) (some "position")
          sg_vertex_format.SG_VERTEXFORMAT_FLOAT3 = some d ∧
      d.shader = sg_init_pipeline_desc.shader ∧
      d.depth_stencil = sg_init_pipeline_desc.depth_stencil ∧
      d.blend = sg_init_pipeline_desc.blend ∧
      d.rast = sg_init_pipeline_desc.rast ∧
      (∀ j : Fin SG_MAX_SHADERSTAGE_BUFFERS, j ≠ ⟨0, by decide⟩ →
        d.layouts j = sg_init_pipeline_desc.layouts j) ∧
      (d.layouts ⟨0, by decide⟩).num_attrs =
        (sg_init_pipeline_desc.layouts ⟨0, by decide⟩).num_attrs + 1 ∧
      (d.layouts ⟨0, by decide⟩).step_func =
        (sg_init_pipeline_desc.layouts ⟨0, by decide⟩).step_func ∧
      (d.layouts ⟨0, by decide⟩).step_rate =
        (sg_init_pipeline_desc.layouts ⟨0, by decide⟩).step_rate ∧
      (∀ k : Fin SG_MAX_VERTEX_ATTRIBUTES,
        (k : Nat) ≠ (sg_init_pipeline_desc.layouts ⟨0, by decide⟩).num_attrs →
        (d.layouts ⟨0, by decide⟩).attrs k =
          (sg_init_pipeline_desc.layouts ⟨0, by decide⟩).attrs k) ∧
      (∀ k : Fin SG_MAX_VERTEX_ATTRIBUTES,
        (k : Nat) = (sg_init_pipeline_desc.layouts ⟨0, by decide⟩).num_attrs →
        (d.layouts ⟨0, by decide⟩).attrs k =
          { name := some "position", format := sg_vertex_format.SG_VERTEXFORMAT_FLOAT3 })) :=
  ⟨⟨by decide, by decide, by decide⟩,
   C10_pipeline_attr_append sg_init_pipeline_desc 0 (by decide) "position"
     sg_vertex_format.SG_VERTEXFORMAT_FLOAT3 (by decide) (by decide)⟩

/-! The resource-pool / handle-allocator core.  Its implementation file
(`_sokol_gfx.impl.h`) is not part of the visible source — the header only
declares `sg_alloc_*`, `sg_init_*`, `sg_make_*`, `sg_destroy_*` — so the
model below is built from the spec (sections 3, 4.1, 4.2, 4.3), using the
`sg_resource_state` enum that IS declared in the header. -/

/-- Modelled from the spec: one pool slot holds a state tag and a
generation counter (the category-specific payload is irrelevant to the
lifecycle claims and is omitted). -/
structure Slot where
  state : sg_resource_state
  gen : Nat
deriving DecidableEq, Repr

/-- Modelled from the spec: a handle is an opaque value composed of a
slot index and a generation counter, with 0 reserved as the universal
invalid sentinel.  The spec fixes no bit packing, so an injective pairing
shifted by one is used: every encoded handle is nonzero. -/
def encodeHandle (i g : Nat) : Nat := Nat.pair i g + 1

/-- Slot index component of a handle. -/
def decodeIndex (h : Nat) : Nat := (Nat.unpair (h - 1)).1

/-- Generation component of a handle. -/
def decodeGen (h : Nat) : Nat := (Nat.unpair (h - 1)).2

/-- Modelled from the spec: a fixed-capacity ordered collection of slots
together with a free-list of unoccupied slot indices. -/
structure Pool where
  slots : List Slot
  freeList : List Nat
deriving DecidableEq, Repr

/-- Read a slot from a slot array (out-of-range reads yield an inert
initial slot; all reachable accesses are in range). -/
def slotGet (l : List Slot) (i : Nat) : Slot :=
  (l[i]?).getD { state := sg_resource_state.SG_RESOURCESTATE_INITIAL, gen := 0 }

/-- The slot of pool `p` at index `i`. -/
def slotAt (p : Pool) (i : Nat) : Slot := slotGet p.slots i

/-- Modelled from the spec: a pool configured with capacity `n` starts
with all slots in the initial state and every index on the free-list.
Generations start at 1, so no live handle ever encodes to the sentinel 0
and the all-zero handle is invalid in every reachable pool. -/
def mkPool (n : Nat) : Pool where
  slots := List.replicate n { state := sg_resource_state.SG_RESOURCESTATE_INITIAL, gen := 1 }
  freeList := List.range n

/-- Modelled from the spec: a handle is valid iff its slot index is in
range, the slot is occupied (state not initial), and the handle's
embedded generation equals the slot's current generation. -/
def handleValid (p : Pool) (h : Nat) : Bool :=
  decide (decodeIndex h < p.slots.length) &&
  decide ((slotAt p (decodeIndex h)).state ≠ sg_resource_state.SG_RESOURCESTATE_INITIAL) &&
  decide ((slotAt p (decodeIndex h)).gen = decodeGen h)

/-- Modelled from the spec: `lookup(handle) -> optional payload` re-checks
the generation, not merely bounds; an invalid or stale handle resolves to
"not found" (`none`). -/
def poolLookup (p : Pool) (h : Nat) : Option Slot :=
  if handleValid p h then some (slotAt p (decodeIndex h)) else none

/-- Modelled from the spec: `allocate()` pops a free slot index (or fails
with the invalid sentinel 0 if none remain), marks the slot allocated and
returns the handle (index, current generation). -/
def poolAlloc (p : Pool) : Nat × Pool :=
  match p.freeList with
  | [] => (SG_INVALID_ID, p)
  | i :: rest =>
    (encodeHandle i (slotAt p i).gen,
     { slots := p.slots.set i
         { slotAt p i with state := sg_resource_state.SG_RESOURCESTATE_ALLOC }
       freeList := rest })

/-- Modelled from the spec: `init(handle, ok)` finishes construction of an
allocated slot, setting it valid on acceptance and failed on rejection or
backend failure; it acts only on a currently-valid handle whose slot is in
the allocated state, and is dropped otherwise. -/
def poolInit (p : Pool) (h : Nat) (ok : Bool) : Pool :=
  if handleValid p h &&
      decide ((slotAt p (decodeIndex h)).state = sg_resource_state.SG_RESOURCESTATE_ALLOC) then
    { p with
      slots := p.slots.set (decodeIndex h)
        { slotAt p (decodeIndex h) with
          state := if ok then sg_resource_state.SG_RESOURCESTATE_VALID
                   else sg_resource_state.SG_RESOURCESTATE_FAILED } }
  else p

/-- Modelled from the spec: `destroy(handle)` is a no-op for an invalid or
already-initial handle; otherwise it transitions the slot to initial,
increments its generation, and pushes the index back onto the free-list. -/
def poolDestroy (p : Pool) (h : Nat) : Pool :=
  if handleValid p h then
    { slots := p.slots.set (decodeIndex h)
        { state := sg_resource_state.SG_RESOURCESTATE_INITIAL
          gen := (slotAt p (decodeIndex h)).gen + 1 }
      freeList := decodeIndex h :: p.freeList }
  else p

/-- One pool operation: allocate, initialise (with backend outcome), or
destroy. -/
inductive PoolOp where
  | alloc
  | init (h : Nat) (ok : Bool)
  | destroy (h : Nat)
deriving DecidableEq, Repr

/-- Apply one pool operation. -/
def applyOp (p : Pool) : PoolOp → Pool
  | PoolOp.alloc => (poolAlloc p).2
  | PoolOp.init h ok => poolInit p h ok
  | PoolOp.destroy h => poolDestroy p h

/-- Run a sequence of pool operations. -/
def runOps (p : Pool) (ops : List PoolOp) : Pool := ops.foldl applyOp p

/-- Allocate `k` times in sequence, collecting the returned handles. -/
def allocMany : Pool → Nat → List Nat × Pool
  | p, 0 => ([], p)
  | p, k + 1 =>
    (((poolAlloc p).1 :: (allocMany (poolAlloc p).2 k).1),
     (allocMany (poolAlloc p).2 k).2)

theorem decodeIndex_encode (i g : Nat) : decodeIndex (encodeHandle i g) = i := by
  simp [decodeIndex, encodeHandle, Nat.unpair_pair]

theorem decodeGen_encode (i g : Nat) : decodeGen (encodeHandle i g) = g := by
  simp [decodeGen, encodeHandle, Nat.unpair_pair]

theorem encodeHandle_ne_invalid (i g : Nat) : encodeHandle i g ≠ SG_INVALID_ID := by
  simp [encodeHandle, SG_INVALID_ID]

theorem handleValid_iff (p : Pool) (h : Nat) :
    handleValid p h = true ↔
      decodeIndex h < p.slots.length ∧
      (slotAt p (decodeIndex h)).state ≠ sg_resource_state.SG_RESOURCESTATE_INITIAL ∧
      (slotAt p (decodeIndex h)).gen = decodeGen h := by
  simp [handleValid, and_assoc]

theorem slotGet_set (l : List Slot) (i j : Nat) (a : Slot) :
    slotGet (l.set i a) j = if i = j ∧ i < l.length then a else slotGet l j := by
  by_cases hij : i = j
  · subst hij
    by_cases hl : i < l.length
    · simp [slotGet, List.getElem?_set_self hl, hl]
    · rw [List.set_eq_of_length_le (by omega)]
      simp [hl]
  · simp [slotGet, List.getElem?_set_ne hij, hij]

theorem slots_length_applyOp (p : Pool) (op : PoolOp) :
    (applyOp p op).slots.length = p.slots.length := by
  cases op with
  | alloc =>
    unfold applyOp poolAlloc
    cases hf : p.freeList <;> simp
  | init h ok =>
    unfold applyOp poolInit
    by_cases hc : (handleValid p h &&
      decide ((slotAt p (decodeIndex h)).state = sg_resource_state.SG_RESOURCESTATE_ALLOC)) = true <;>
      simp [hc]
  | destroy h =>
    unfold applyOp poolDestroy
    by_cases hc : handleValid p h = true <;> simp [hc]

theorem slots_length_runOps (p : Pool) (ops : List PoolOp) :
    (runOps p ops).slots.length = p.slots.length := by
  induction ops generalizing p with
  | nil => rfl
  | cons op t ih =>
    calc (runOps (applyOp p op) t).slots.length
        = (applyOp p op).slots.length := ih (applyOp p op)
      _ = p.slots.length := slots_length_applyOp p op

theorem poolAlloc_nil (p : Pool) (hf : p.freeList = []) :
    poolAlloc p = (SG_INVALID_ID, p) := by
  unfold poolAlloc
  rw [hf]

theorem poolAlloc_cons (p : Pool) (j : Nat) (rest : List Nat)
    (hf : p.freeList = j :: rest) :
    poolAlloc p = (encodeHandle j (slotAt p j).gen,
      { slots := p.slots.set j
          { slotAt p j with state := sg_resource_state.SG_RESOURCESTATE_ALLOC }
        freeList := rest }) := by
  unfold poolAlloc
  rw [hf]

theorem gen_mono_applyOp (p : Pool) (op : PoolOp) (i : Nat) :
    (slotAt p i).gen ≤ (slotAt (applyOp p op) i).gen := by
  cases op with
  | alloc =>
    simp only [applyOp]
    cases hf : p.freeList with
    | nil => rw [poolAlloc_nil p hf]
    | cons j rest =>
      rw [poolAlloc_cons p j rest hf]
      simp only [slotAt, slotGet_set]
      split
      · next hc => rw [hc.1]
      · exact le_refl _
  | init h ok =>
    simp only [applyOp]
    unfold poolInit
    split
    · simp only [slotAt, slotGet_set]
      split
      · next hc => rw [hc.1]
      · exact le_refl _
    · exact le_refl _
  | destroy h =>
    simp only [applyOp]
    unfold poolDestroy
    split
    · simp only [slotAt, slotGet_set]
      split
      · next hc => rw [hc.1]; exact Nat.le_succ _
      · exact le_refl _
    · exact le_refl _

theorem gen_mono_runOps (p : Pool) (ops : List PoolOp) (i : Nat) :
    (slotAt p i).gen ≤ (slotAt (runOps p ops) i).gen := by
  induction ops generalizing p with
  | nil => exact le_refl _
  | cons op t ih =>
    exact le_trans (gen_mono_applyOp p op i) (ih (applyOp p op))

theorem length_mkPool (n : Nat) : (mkPool n).slots.length = n := by
  simp [mkPool]

theorem slotAt_mkPool (n i : Nat) (hi : i < n) :
    slotAt (mkPool n) i =
      { state := sg_resource_state.SG_RESOURCESTATE_INITIAL, gen := 1 } := by
  simp [slotAt, slotGet, mkPool, List.getElem?_replicate, hi]

theorem one_le_gen_runOps (n : Nat) (ops : List PoolOp) (i : Nat) (hi : i < n) :
    1 ≤ (slotAt (runOps (mkPool n) ops) i).gen := by
  have h1 : (slotAt (mkPool n) i).gen = 1 := by rw [slotAt_mkPool n i hi]
  calc 1 = (slotAt (mkPool n) i).gen := h1.symm
    _ ≤ _ := gen_mono_runOps (mkPool n) ops i

theorem poolDestroy_valid (p : Pool) (h : Nat) (hv : handleValid p h = true) :
    poolDestroy p h =
      { slots := p.slots.set (decodeIndex h)
          { state := sg_resource_state.SG_RESOURCESTATE_INITIAL
            gen := (slotAt p (decodeIndex h)).gen + 1 }
        freeList := decodeIndex h :: p.freeList } := by
  unfold poolDestroy
  rw [if_pos hv]

theorem slotAt_destroy (p : Pool) (h : Nat) (hv : handleValid p h = true) (j : Nat) :
    slotAt (poolDestroy p h) j =
      (if decodeIndex h = j ∧ decodeIndex h < p.slots.length then
        { state := sg_resource_state.SG_RESOURCESTATE_INITIAL
          gen := (slotAt p (decodeIndex h)).gen + 1 }
      else slotAt p j) := by
  rw [poolDestroy_valid p h hv]
  exact slotGet_set p.slots (decodeIndex h) j _

theorem slotAt_alloc_cons (p : Pool) (j : Nat) (rest : List Nat)
    (hf : p.freeList = j :: rest) (k : Nat) :
    slotAt (poolAlloc p).2 k =
      (if j = k ∧ j < p.slots.length then
        { slotAt p j with state := sg_resource_state.SG_RESOURCESTATE_ALLOC }
      else slotAt p k) := by
  rw [poolAlloc_cons p j rest hf]
  exact slotGet_set p.slots j k _

theorem destroyed_gen (p : Pool) (h : Nat) (hv : handleValid p h = true) :
    (slotAt (poolDestroy p h) (decodeIndex h)).gen = decodeGen h + 1 := by
  have hvi := (handleValid_iff p h).mp hv
  rw [slotAt_destroy p h hv, if_pos ⟨rfl, hvi.1⟩, ← hvi.2.2]

theorem gen_alloc_eq (q : Pool) (j : Nat) :
    (slotAt (poolAlloc q).2 j).gen = (slotAt q j).gen := by
  cases hf : q.freeList with
  | nil => rw [poolAlloc_nil q hf]
  | cons a rest =>
    rw [slotAt_alloc_cons q a rest hf j]
    split
    · next hc => rw [hc.1]
    · rfl

theorem gen_init_eq (q : Pool) (h2 : Nat) (ok : Bool) (j : Nat) :
    (slotAt (poolInit q h2 ok) j).gen = (slotAt q j).gen := by
  unfold poolInit
  split
  · simp only [slotAt, slotGet_set]
    split
    · next hc => rw [hc.1]
    · rfl
  · rfl

theorem poolLookup_stale (q : Pool) (h : Nat)
    (hgt : decodeGen h < (slotAt q (decodeIndex h)).gen) :
    poolLookup q h = none := by
  unfold poolLookup
  rw [if_neg]
  intro hv
  have hvi := (handleValid_iff q h).mp hv
  omega

/-- C6: destroying a valid handle bumps exactly that slot's generation by
one and leaves every other slot untouched; alloc and init never change a
generation (so the counter moves exactly once per destroy transition);
after the destroy, the stale handle resolves to "not found" through
poolLookup in every later reachable state, and any handle allocated later
for the same slot index carries a different generation. -/
theorem C6_stale_handle_never_resolves (n : Nat) (pre : List PoolOp) (h : Nat)
    (hv : handleValid (runOps (mkPool n) pre) h = true) (ops : List PoolOp) :
    (∀ q : Pool, ∀ j : Nat,
      (slotAt (applyOp q PoolOp.alloc) j).gen = (slotAt q j).gen ∧
      (∀ h2 : Nat, ∀ ok : Bool,
        (slotAt (applyOp q (PoolOp.init h2 ok)) j).gen = (slotAt q j).gen)) ∧
    (slotAt (poolDestroy (runOps (mkPool n) pre) h) (decodeIndex h)).gen = decodeGen h + 1 ∧
    (∀ j : Nat, j ≠ decodeIndex h →
      slotAt (poolDestroy (runOps (mkPool n) pre) h) j = slotAt (runOps (mkPool n) pre) j) ∧
    poolLookup (runOps (poolDestroy (runOps (mkPool n) pre) h) ops) h = none ∧
    (decodeIndex (poolAlloc (runOps (poolDestroy (runOps (mkPool n) pre) h) ops)).1
        = decodeIndex h →
      decodeGen (poolAlloc (runOps (poolDestroy (runOps (mkPool n) pre) h) ops)).1
        ≠ decodeGen h) := by
  have hvi := (handleValid_iff (runOps (mkPool n) pre) h).mp hv
  have hd := destroyed_gen (runOps (mkPool n) pre) h hv
  have hm := gen_mono_runOps (poolDestroy (runOps (mkPool n) pre) h) ops (decodeIndex h)
  refine ⟨fun q j => ⟨gen_alloc_eq q j, fun h2 ok => gen_init_eq q h2 ok j⟩, hd, ?_, ?_, ?_⟩
  · intro j hj
    rw [slotAt_destroy (runOps (mkPool n) pre) h hv j, if_neg]
    intro hc
    exact hj hc.1.symm
  · exact poolLookup_stale _ h (by omega)
  · intro heq
    cases hf : (runOps (poolDestroy (runOps (mkPool n) pre) h) ops).freeList with
    | nil =>
      rw [poolAlloc_nil _ hf]
      have hge : 1 ≤ decodeGen h := by
        rw [← hvi.2.2]
        exact one_le_gen_runOps n pre (decodeIndex h) (by
          have hlen := hvi.1
          rwa [slots_length_runOps, length_mkPool] at hlen)
      have h0 : decodeGen
          (SG_INVALID_ID, runOps (poolDestroy (runOps (mkPool n) pre) h) ops).1 = 0 := rfl
      omega
    | cons a rest =>
      rw [poolAlloc_cons _ a rest hf] at heq ⊢
      rw [decodeIndex_encode] at heq
      rw [decodeGen_encode, heq]
      omega

theorem allocMany_succ (p : Pool) (k : Nat) :
    allocMany p (k + 1) =
      ((poolAlloc p).1 :: (allocMany (poolAlloc p).2 k).1,
       (allocMany (poolAlloc p).2 k).2) := rfl

theorem allocMany_spec (k : Nat) : ∀ p : Pool, k ≤ p.freeList.length →
    ((allocMany p k).2).freeList = p.freeList.drop k ∧
    (∀ x ∈ (allocMany p k).1, x ≠ SG_INVALID_ID) := by
  induction k with
  | zero =>
    intro p _
    exact ⟨by simp [allocMany], by simp [allocMany]⟩
  | succ k ih =>
    intro p hk
    cases hf : p.freeList with
    | nil =>
      rw [hf] at hk
      simp at hk
    | cons j rest =>
      have hA := poolAlloc_cons p j rest hf
      have hlen : k ≤ rest.length := by
        rw [hf] at hk
        simpa using hk
      rw [allocMany_succ, hA]
      have ih2 := ih
        { slots := p.slots.set j
            { slotAt p j with state := sg_resource_state.SG_RESOURCESTATE_ALLOC }
          freeList := rest } hlen
      constructor
      · rw [List.drop_succ_cons]
        exact ih2.1
      · intro x hx
        rcases List.mem_cons.mp hx with he | hx2
        · subst he
          exact encodeHandle_ne_invalid _ _
        · exact ih2.2 x hx2

theorem mkPool_freeList (n : Nat) : (mkPool n).freeList = List.range n := rfl

theorem allocMany_mkPool_exhausted (N : Nat) :
    ((allocMany (mkPool N) N).2).freeList = [] := by
  have h := (allocMany_spec N (mkPool N) (by simp [mkPool])).1
  rw [h, mkPool_freeList]
  apply List.drop_eq_nil_of_le
  simp

/-- C7: starting from a pool of capacity N, all N allocations succeed
(no returned handle is the invalid sentinel 0); the (N+1)th allocation
fails softly, returning the sentinel 0 and leaving the pool unchanged;
after destroying any live resource, the next allocation succeeds again,
reusing the freed slot index with the generation incremented by one and
the slot back in the allocated state. -/
theorem C7_pool_exhaustion_soft (N : Nat) (h : Nat)
    (hv : handleValid ((allocMany (mkPool N) N).2) h = true) :
    (∀ x ∈ (allocMany (mkPool N) N).1, x ≠ SG_INVALID_ID) ∧
    (poolAlloc ((allocMany (mkPool N) N).2)).1 = SG_INVALID_ID ∧
    (poolAlloc ((allocMany (mkPool N) N).2)).2 = (allocMany (mkPool N) N).2 ∧
    (poolAlloc (poolDestroy ((allocMany (mkPool N) N).2) h)).1 ≠ SG_INVALID_ID ∧
    decodeIndex (poolAlloc (poolDestroy ((allocMany (mkPool N) N).2) h)).1 = decodeIndex h ∧
    decodeGen (poolAlloc (poolDestroy ((allocMany (mkPool N) N).2) h)).1 = decodeGen h + 1 ∧
    (slotAt (poolAlloc (poolDestroy ((allocMany (mkPool N) N).2) h)).2 (decodeIndex h)).state
      = sg_resource_state.SG_RESOURCESTATE_ALLOC := by
  have hvi := (handleValid_iff _ h).mp hv
  have hex := allocMany_mkPool_exhausted N
  have hall := (allocMany_spec N (mkPool N) (by simp [mkPool])).2
  have hnil := poolAlloc_nil _ hex
  have hpd := poolDestroy_valid _ h hv
  have hpdf : (poolDestroy ((allocMany (mkPool N) N).2) h).freeList = [decodeIndex h] := by
    rw [hpd]
    show decodeIndex h :: ((allocMany (mkPool N) N).2).freeList = [decodeIndex h]
    rw [hex]
  have hac := poolAlloc_cons _ (decodeIndex h) [] hpdf
  have hsd : slotAt (poolDestroy ((allocMany (mkPool N) N).2) h) (decodeIndex h)
      = { state := sg_resource_state.SG_RESOURCESTATE_INITIAL, gen := decodeGen h + 1 } := by
    rw [slotAt_destroy _ h hv, if_pos ⟨rfl, hvi.1⟩, hvi.2.2]
  have hlen : decodeIndex h < (poolDestroy ((allocMany (mkPool N) N).2) h).slots.length := by
    rw [hpd]
    simpa using hvi.1
  refine ⟨hall, by rw [hnil], by rw [hnil], ?_, ?_, ?_, ?_⟩
  · rw [hac]
    exact encodeHandle_ne_invalid _ _
  · rw [hac]
    exact decodeIndex_encode _ _
  · rw [hac]
    show decodeGen (encodeHandle (decodeIndex h)
      (slotAt (poolDestroy ((allocMany (mkPool N) N).2) h) (decodeIndex h)).gen) = decodeGen h + 1
    rw [decodeGen_encode, hsd]
  · rw [slotAt_alloc_cons _ (decodeIndex h) [] hpdf (decodeIndex h), if_pos ⟨rfl, hlen⟩]

theorem poolInit_guard_false (p : Pool) (h2 : Nat) (ok : Bool)
    (hg : (handleValid p h2 &&
      decide ((slotAt p (decodeIndex h2)).state
        = sg_resource_state.SG_RESOURCESTATE_ALLOC)) = false) :
    poolInit p h2 ok = p := by
  unfold poolInit
  rw [if_neg (by simp [hg])]

theorem slotAt_init_of_guard (p : Pool) (h2 : Nat) (ok : Bool) (j : Nat)
    (hg : (handleValid p h2 &&
      decide ((slotAt p (decodeIndex h2)).state
        = sg_resource_state.SG_RESOURCESTATE_ALLOC)) = true) :
    slotAt (poolInit p h2 ok) j =
      (if decodeIndex h2 = j ∧ decodeIndex h2 < p.slots.length then
        { slotAt p (decodeIndex h2) with
          state := if ok then sg_resource_state.SG_RESOURCESTATE_VALID
                   else sg_resource_state.SG_RESOURCESTATE_FAILED }
      else slotAt p j) := by
  unfold poolInit
  rw [if_pos hg]
  exact slotGet_set p.slots (decodeIndex h2) j _

theorem poolDestroy_invalid (p : Pool) (h : Nat) (hg : handleValid p h = false) :
    poolDestroy p h = p := by
  unfold poolDestroy
  rw [if_neg (by simp [hg])]

/-- Modelled from the spec: the free-list of a well-formed pool has no
duplicate indices and holds exactly unoccupied (initial-state, in-range)
slots.  Every pool reachable from `mkPool` satisfies this. -/
def PoolWF (p : Pool) : Prop :=
  p.freeList.Nodup ∧
  ∀ i ∈ p.freeList, i < p.slots.length ∧
    (slotAt p i).state = sg_resource_state.SG_RESOURCESTATE_INITIAL

theorem poolWF_mkPool (n : Nat) : PoolWF (mkPool n) := by
  constructor
  · exact List.nodup_range n
  · intro i hi
    rw [mkPool_freeList, List.mem_range] at hi
    constructor
    · simpa [length_mkPool] using hi
    · rw [slotAt_mkPool n i hi]

theorem poolWF_applyOp (p : Pool) (hWF : PoolWF p) (op : PoolOp) :
    PoolWF (applyOp p op) := by
  obtain ⟨hnd, hmem⟩ := hWF
  cases op with
  | alloc =>
    simp only [applyOp]
    cases hf : p.freeList with
    | nil =>
      rw [poolAlloc_nil p hf]
      exact ⟨hnd, hmem⟩
    | cons j rest =>
      have hnd2 : (j :: rest).Nodup := hf ▸ hnd
      rw [List.nodup_cons] at hnd2
      constructor
      · rw [poolAlloc_cons p j rest hf]
        exact hnd2.2
      · intro i hi
        rw [poolAlloc_cons p j rest hf] at hi
        have hi2 := hmem i (by rw [hf]; exact List.mem_cons_of_mem j hi)
        have hij : j ≠ i := fun he => hnd2.1 (he ▸ hi)
        constructor
        · rw [poolAlloc_cons p j rest hf]
          simpa using hi2.1
        · rw [slotAt_alloc_cons p j rest hf i, if_neg (fun hc => hij hc.1)]
          exact hi2.2
  | init h2 ok =>
    simp only [applyOp]
    cases hg : (handleValid p h2 &&
        decide ((slotAt p (decodeIndex h2)).state
          = sg_resource_state.SG_RESOURCESTATE_ALLOC)) with
    | false =>
      rw [poolInit_guard_false p h2 ok hg]
      exact ⟨hnd, hmem⟩
    | true =>
      have hfl : (poolInit p h2 ok).freeList = p.freeList := by
        unfold poolInit
        rw [if_pos hg]
      have hln : (poolInit p h2 ok).slots.length = p.slots.length := by
        unfold poolInit
        rw [if_pos hg]
        simp
      have hcond := hg
      rw [Bool.and_eq_true, decide_eq_true_eq] at hcond
      refine ⟨by rw [hfl]; exact hnd, ?_⟩
      intro i hi
      rw [hfl] at hi
      have hi2 := hmem i hi
      have hne : decodeIndex h2 ≠ i := by
        intro he
        rw [he, hi2.2] at hcond
        exact absurd hcond.2 (by simp)
      constructor
      · rw [hln]
        exact hi2.1
      · rw [slotAt_init_of_guard p h2 ok i hg, if_neg (fun hc => hne hc.1)]
        exact hi2.2
  | destroy h2 =>
    simp only [applyOp]
    cases hgb : handleValid p h2 with
    | false =>
      rw [poolDestroy_invalid p h2 hgb]
      exact ⟨hnd, hmem⟩
    | true =>
      have hvi := (handleValid_iff p h2).mp hgb
      have hni : decodeIndex h2 ∉ p.freeList := fun hm => hvi.2.1 ((hmem _ hm).2)
      have hfl : (poolDestroy p h2).freeList = decodeIndex h2 :: p.freeList := by
        rw [poolDestroy_valid p h2 hgb]
      have hln : (poolDestroy p h2).slots.length = p.slots.length := by
        rw [poolDestroy_valid p h2 hgb]
        simp
      constructor
      · rw [hfl]
        exact List.nodup_cons.mpr ⟨hni, hnd⟩
      · intro i hi
        rw [hfl] at hi
        rcases List.mem_cons.mp hi with he | hi2
        · subst he
          refine ⟨by rw [hln]; exact hvi.1, ?_⟩
          rw [slotAt_destroy p h2 hgb _, if_pos ⟨rfl, hvi.1⟩]
        · have hi3 := hmem i hi2
          have hne : decodeIndex h2 ≠ i := fun he => hni (he ▸ hi2)
          refine ⟨by rw [hln]; exact hi3.1, ?_⟩
          rw [slotAt_destroy p h2 hgb i, if_neg (fun hc => hne hc.1)]
          exact hi3.2

theorem poolWF_runOps (n : Nat) (ops : List PoolOp) : PoolWF (runOps (mkPool n) ops) := by
  have hgen : ∀ (l : List PoolOp) (p : Pool), PoolWF p → PoolWF (runOps p l) := by
    intro l
    induction l with
    | nil => intro p hp; exact hp
    | cons op t ih => intro p hp; exact ih _ (poolWF_applyOp p hp op)
  exact hgen ops _ (poolWF_mkPool n)

theorem step_transition (p : Pool) (hWF : PoolWF p) (op : PoolOp) (i : Nat) :
    (slotAt (applyOp p op) i).state = (slotAt p i).state
    ∨ ((slotAt p i).state = sg_resource_state.SG_RESOURCESTATE_INITIAL ∧
       (slotAt (applyOp p op) i).state = sg_resource_state.SG_RESOURCESTATE_ALLOC ∧
       op = PoolOp.alloc)
    ∨ ((slotAt p i).state = sg_resource_state.SG_RESOURCESTATE_ALLOC ∧
       ((slotAt (applyOp p op) i).state = sg_resource_state.SG_RESOURCESTATE_VALID ∨
        (slotAt (applyOp p op) i).state = sg_resource_state.SG_RESOURCESTATE_FAILED) ∧
       (∃ h2 ok, op = PoolOp.init h2 ok))
    ∨ ((slotAt p i).state ≠ sg_resource_state.SG_RESOURCESTATE_INITIAL ∧
       (slotAt (applyOp p op) i).state = sg_resource_state.SG_RESOURCESTATE_INITIAL ∧
       (∃ h2, op = PoolOp.destroy h2)) := by
  obtain ⟨hnd, hmem⟩ := hWF
  cases op with
  | alloc =>
    simp only [applyOp]
    cases hf : p.freeList with
    | nil =>
      rw [poolAlloc_nil p hf]
      exact Or.inl rfl
    | cons j rest =>
      rw [slotAt_alloc_cons p j rest hf i]
      by_cases hc : j = i ∧ j < p.slots.length
      · rw [if_pos hc]
        have hjmem : j ∈ p.freeList := by
          rw [hf]
          exact List.mem_cons_self j rest
        have hst := (hmem j hjmem).2
        right; left
        refine ⟨?_, rfl, trivial⟩
        rw [← hc.1]
        exact hst
      · rw [if_neg hc]
        exact Or.inl rfl
  | init h2 ok =>
    simp only [applyOp]
    cases hg : (handleValid p h2 &&
        decide ((slotAt p (decodeIndex h2)).state
          = sg_resource_state.SG_RESOURCESTATE_ALLOC)) with
    | false =>
      rw [poolInit_guard_false p h2 ok hg]
      exact Or.inl rfl
    | true =>
      rw [slotAt_init_of_guard p h2 ok i hg]
      by_cases hc : decodeIndex h2 = i ∧ decodeIndex h2 < p.slots.length
      · rw [if_pos hc]
        have hcond := hg
        rw [Bool.and_eq_true, decide_eq_true_eq] at hcond
        right; right; left
        refine ⟨by rw [← hc.1]; exact hcond.2, ?_, h2, ok, rfl⟩
        cases ok
        · right; rfl
        · left; rfl
      · rw [if_neg hc]
        exact Or.inl rfl
  | destroy h2 =>
    simp only [applyOp]
    cases hgb : handleValid p h2 with
    | false =>
      rw [poolDestroy_invalid p h2 hgb]
      exact Or.inl rfl
    | true =>
      rw [slotAt_destroy p h2 hgb i]
      by_cases hc : decodeIndex h2 = i ∧ decodeIndex h2 < p.slots.length
      · rw [if_pos hc]
        have hvi := (handleValid_iff p h2).mp hgb
        right; right; right
        exact ⟨by rw [← hc.1]; exact hvi.2.1, rfl, h2, rfl⟩
      · rw [if_neg hc]
        exact Or.inl rfl

/-- C8: in every pool state reachable from mkPool, one operation moves a
slot's state only along the legal edges: unchanged, initial to allocated
(by alloc), allocated to valid or failed (by init), or any occupied state
back to initial (by destroy) — so valid/failed is reached only through
allocated (never directly from initial), and destroy is the only way back
to initial. -/
theorem C8_slot_state_machine (n : Nat) (ops : List PoolOp) (op : PoolOp) (i : Nat) :
    (slotAt (applyOp (runOps (mkPool n) ops) op) i).state
        = (slotAt (runOps (mkPool n) ops) i).state
    ∨ ((slotAt (runOps (mkPool n) ops) i).state = sg_resource_state.SG_RESOURCESTATE_INITIAL ∧
       (slotAt (applyOp (runOps (mkPool n) ops) op) i).state
          = sg_resource_state.SG_RESOURCESTATE_ALLOC ∧
       op = PoolOp.alloc)
    ∨ ((slotAt (runOps (mkPool n) ops) i).state = sg_resource_state.SG_RESOURCESTATE_ALLOC ∧
       ((slotAt (applyOp (runOps (mkPool n) ops) op) i).state
            = sg_resource_state.SG_RESOURCESTATE_VALID ∨
        (slotAt (applyOp (runOps (mkPool n) ops) op) i).state
            = sg_resource_state.SG_RESOURCESTATE_FAILED) ∧
       (∃ h2 ok, op = PoolOp.init h2 ok))
    ∨ ((slotAt (runOps (mkPool n) ops) i).state ≠ sg_resource_state.SG_RESOURCESTATE_INITIAL ∧
       (slotAt (applyOp (runOps (mkPool n) ops) op) i).state
          = sg_resource_state.SG_RESOURCESTATE_INITIAL ∧
       (∃ h2, op = PoolOp.destroy h2)) :=
  step_transition (runOps (mkPool n) ops) (poolWF_runOps n ops) op i

theorem C6_stale_handle_never_resolves_witness :
    handleValid (runOps (mkPool 1) [PoolOp.alloc]) 2 = true ∧
    ((∀ q : Pool, ∀ j : Nat,
      (slotAt (applyOp q PoolOp.alloc) j).gen = (slotAt q j).gen ∧
      (∀ h2 : Nat, ∀ ok : Bool,
        (slotAt (applyOp q (PoolOp.init h2 ok)) j).gen = (slotAt q j).gen)) ∧
    (slotAt (poolDestroy (runOps (mkPool 1) [PoolOp.alloc]) 2) (decodeIndex 2)).gen
        = decodeGen 2 + 1 ∧
    (∀ j : Nat, j ≠ decodeIndex 2 →
      slotAt (poolDestroy (runOps (mkPool 1) [PoolOp.alloc]) 2) j
        = slotAt (runOps (mkPool 1) [PoolOp.alloc]) j) ∧
    poolLookup (runOps (poolDestroy (runOps (mkPool 1) [PoolOp.alloc]) 2) []) 2 = none ∧
    (decodeIndex (poolAlloc (runOps (poolDestroy (runOps (mkPool 1) [PoolOp.alloc]) 2) [])).1
        = decodeIndex 2 →
      decodeGen (poolAlloc (runOps (poolDestroy (runOps (mkPool 1) [PoolOp.alloc]) 2) [])).1
        ≠ decodeGen 2)) :=
  ⟨by decide, C6_stale_handle_never_resolves 1 [PoolOp.alloc] 2 (by decide) []⟩

theorem C7_pool_exhaustion_soft_witness :
    handleValid ((allocMany (mkPool 1) 1).2) 2 = true ∧
    ((∀ x ∈ (allocMany (mkPool 1) 1).1, x ≠ SG_INVALID_ID) ∧
     (poolAlloc ((allocMany (mkPool 1) 1).2)).1 = SG_INVALID_ID ∧
     (poolAlloc ((allocMany (mkPool 1) 1).2)).2 = (allocMany (mkPool 1) 1).2 ∧
     (poolAlloc (poolDestroy ((allocMany (mkPool 1) 1).2) 2)).1 ≠ SG_INVALID_ID ∧
     decodeIndex (poolAlloc (poolDestroy ((allocMany (mkPool 1) 1).2) 2)).1 = decodeIndex 2 ∧
     decodeGen (poolAlloc (poolDestroy ((allocMany (mkPool 1) 1).2) 2)).1 = decodeGen 2 + 1 ∧
     (slotAt (poolAlloc (poolDestroy ((allocMany (mkPool 1) 1).2) 2)).2 (decodeIndex 2)).state
       = sg_resource_state.SG_RESOURCESTATE_ALLOC) :=
  ⟨by decide, C7_pool_exhaustion_soft 1 2 (by decide)⟩
